import Mathlib

/-!
Shallow embedding of the control pipeline of a differential-drive mobile
robot: differential-drive kinematics, reactive wall-following behaviors,
a PID controller, encoder-based wheel-speed derivation, odometry pose
integration and pose-error computation.  Pure rational-arithmetic
functions are embedded over the rationals; functions involving pi,
trigonometry or square roots are embedded over the reals.  Division by
zero in the source (a runtime error there) is modelled by returning
none from an Option-valued embedding.
-/

/-- Converts desired linear speed u_d and angular speed w_d into wheel speed
commands, given wheel distance D and wheel radius R; returns the pair
(left, right).  Embeds wheel_speed_commands of the behaviors notebook. -/
def wheel_speed_commands (u_d w_d D R : ℚ) : ℚ × ℚ :=
  let wr_d := (2*u_d + D*w_d)/(2*R)
  let wl_d := (2*u_d - D*w_d)/(2*R)
  (wl_d, wr_d)

/-- Computes robot linear and angular speeds u and w from the wheel angular
speeds wl and wr, wheel radius R and wheel distance D.  Embeds
get_robot_speeds of the odometry notebook. -/
def get_robot_speeds (wl wr R D : ℚ) : ℚ × ℚ :=
  let u := R/2 * (wr + wl)
  let w := R/D * (wr - wl)
  (u, w)

/-- Wall-following behavior with constant linear speed.  Embeds
follow_wall_to_left of the behaviors notebook. -/
def follow_wall_to_left (kd d_l d_desired : ℚ) : ℚ × ℚ :=
  let u_ref : ℚ := 0.5
  let w_ref := kd*(d_l - d_desired)
  (u_ref, w_ref)

/-- Wall-following behavior whose linear speed depends on the distance d to a
frontal obstacle.  Embeds follow_wall_to_left_obst of the behaviors
notebook; the constants d_min, d_max and u_max are the literals of the
source. -/
def follow_wall_to_left_obst (kd d_l d_desired d : ℚ) : ℚ × ℚ :=
  let d_min : ℚ := 0.05
  let d_max : ℚ := 0.25
  let u_max : ℚ := 0.5
  let u_ref := if d ≥ d_min then u_max*d/d_max else 0
  let w_ref := kd*(d_l - d_desired)
  (u_ref, w_ref)

/-- Wall-following behavior with obstacle-dependent linear speed and a
parallel-correction term fed by front and rear left-wall sensors.  Embeds
improved_follow_wall_to_left_obst of the behaviors notebook. -/
def improved_follow_wall_to_left_obst (kd kd2 d_fl d_rl d_desired d : ℚ) : ℚ × ℚ :=
  let d_min : ℚ := 0.05
  let d_max : ℚ := 0.25
  let u_max : ℚ := 0.5
  let u_ref := if d ≥ d_min then u_max * d/d_max else 0
  let d_l := (d_fl + d_rl)/2
  let w_ref := kd*(d_l - d_desired) + kd2*(d_fl - d_rl)
  (u_ref, w_ref)

/-- One step of the PID algorithm: returns (output, new previous error, new
accumulated error).  Embeds pid_controller of the PID notebook; the source
divides by delta_t when forming the derivative term, which raises a runtime
error at delta_t = 0, modelled here by none. -/
def pid_controller (e e_prev e_acc delta_t kp kd ki : ℚ) : Option (ℚ × ℚ × ℚ) :=
  if delta_t = 0 then none else
  let P := kp*e
  let I := e_acc + ki*e*delta_t
  let D := kd*(e - e_prev)/delta_t
  let output := P + I + D
  some (output, e, I)

/-- Computes the angular speed of each wheel from consecutive accumulated
encoder counts (left, right), the pulses per turn and the time step. Embeds
get_wheels_speed of the odometry notebook; the divisions by
pulses_per_turn and delta_t raise a runtime error when the divisor is
zero, modelled here by none. -/
noncomputable def get_wheels_speed (encoderValues oldEncoderValues : ℤ × ℤ)
    (pulses_per_turn delta_t : ℝ) : Option (ℝ × ℝ) :=
  if pulses_per_turn = 0 ∨ delta_t = 0 then none else
  let ang_diff_l := 2*Real.pi*((encoderValues.1 - oldEncoderValues.1 : ℤ) : ℝ)/pulses_per_turn
  let ang_diff_r := 2*Real.pi*((encoderValues.2 - oldEncoderValues.2 : ℤ) : ℝ)/pulses_per_turn
  some (ang_diff_l/delta_t, ang_diff_r/delta_t)

/-- The heading normalization performed inline by get_robot_pose: a single
conditional subtraction or addition of 2*pi.  This is the if/elif block of
the source, factored out so that theorems can speak about it directly. -/
noncomputable def wrapHeading (phi : ℝ) : ℝ :=
  if phi ≥ Real.pi then phi - 2*Real.pi
  else if phi < -Real.pi then phi + 2*Real.pi
  else phi

/-- Updates the robot pose (x, y, phi) from linear speed u, angular speed w,
the previous pose and the time step.  Embeds get_robot_pose of the odometry
notebook: the new heading is wrapped first and the position increments use
the wrapped new heading. -/
noncomputable def get_robot_pose (u w x_old y_old phi_old delta_t : ℝ) : ℝ × ℝ × ℝ :=
  let delta_phi := w * delta_t
  let phi := wrapHeading (phi_old + delta_phi)
  let delta_x := u * Real.cos phi * delta_t
  let delta_y := u * Real.sin phi * delta_t
  (x_old + delta_x, y_old + delta_y, phi)

/-- Two-argument arctangent with the conventions of numpy arctan2, in
particular arctan2 0 0 = 0.  Used to embed the calls to np.arctan2 in the
PID notebook. -/
noncomputable def arctan2 (y x : ℝ) : ℝ :=
  if 0 < x then Real.arctan (y/x)
  else if x < 0 then
    (if 0 ≤ y then Real.arctan (y/x) + Real.pi else Real.arctan (y/x) - Real.pi)
  else
    (if 0 < y then Real.pi/2 else if y < 0 then -(Real.pi/2) else 0)

/-- Returns the distance error and the orientation error from the desired
position (xd, yd) to the current pose (x, y, phi).  Embeds get_pose_error
of the PID notebook. -/
noncomputable def get_pose_error (xd yd x y phi : ℝ) : ℝ × ℝ :=
  let x_err := xd - x
  let y_err := yd - y
  let dist_err := Real.sqrt (x_err^2 + y_err^2)
  let phi_d := arctan2 y_err x_err
  let phi_err := phi_d - phi
  let phi_err_correct := arctan2 (Real.sin phi_err) (Real.cos phi_err)
  (dist_err, phi_err_correct)

/-- Closed form of get_robot_pose in terms of wrapHeading: both position
increments use the wrapped new heading. -/
lemma get_robot_pose_eq (u w x y phi dt : ℝ) :
    get_robot_pose u w x y phi dt
      = (x + u * Real.cos (wrapHeading (phi + w * dt)) * dt,
         y + u * Real.sin (wrapHeading (phi + w * dt)) * dt,
         wrapHeading (phi + w * dt)) := rfl

/-- The single-step wrap lands in the interval from -pi inclusive to pi
exclusive whenever its input is within 2*pi of that interval. -/
lemma wrapHeading_bounds (phi : ℝ) (h1 : -(3*Real.pi) ≤ phi) (h2 : phi < 3*Real.pi) :
    -Real.pi ≤ wrapHeading phi ∧ wrapHeading phi < Real.pi := by
  have hpi : 0 < Real.pi := Real.pi_pos
  unfold wrapHeading
  split_ifs with hA hB
  · constructor <;> linarith
  · constructor <;> linarith
  · push_neg at hA hB
    constructor <;> linarith

/-- C4: converting a desired (linear, angular) speed pair to wheel speed
commands and converting the resulting (left, right) pair back recovers the
original pair exactly, for every geometry with positive wheel radius R and
positive wheel distance D (round-trip law, exact in rational arithmetic). -/
theorem kinematics_roundtrip (u_d w_d D R : ℚ) (hR : 0 < R) (hD : 0 < D) :
    get_robot_speeds (wheel_speed_commands u_d w_d D R).1
      (wheel_speed_commands u_d w_d D R).2 R D = (u_d, w_d) := by
  have hR' : R ≠ 0 := ne_of_gt hR
  have hD' : D ≠ 0 := ne_of_gt hD
  simp only [wheel_speed_commands, get_robot_speeds, Prod.mk.injEq]
  constructor <;> field_simp <;> ring

/-- Witness for kinematics_roundtrip at u_d = 3, w_d = 5, D = 2, R = 1/2. -/
theorem kinematics_roundtrip_witness :
    (0 < (1/2 : ℚ) ∧ 0 < (2 : ℚ)) ∧
    get_robot_speeds (wheel_speed_commands 3 5 2 (1/2)).1
      (wheel_speed_commands 3 5 2 (1/2)).2 (1/2) 2 = (3, 5) :=
  ⟨⟨by norm_num, by norm_num⟩, kinematics_roundtrip 3 5 2 (1/2) (by norm_num) (by norm_num)⟩

/-- C10: when the front and rear left-wall sensors agree (d_fl = d_rl = x),
the improved wall-follow returns exactly the same pair as the plain
obstacle-aware wall-follow at wall distance x: the parallel-correction term
vanishes. -/
theorem improved_follow_wall_coincides (kd kd2 d_desired d x : ℚ) :
    improved_follow_wall_to_left_obst kd kd2 x x d_desired d
      = follow_wall_to_left_obst kd x d_desired d := by
  simp only [improved_follow_wall_to_left_obst, follow_wall_to_left_obst, Prod.mk.injEq]
  refine ⟨trivial, by ring⟩

/-- C2 counterexample: at the concrete scenario of the claim (front distance
d = 0.5, with gain 1, wall reading 0.18 and desired distance 0.15) the code
returns linear speed 1, not the claimed clamped value 0.5: there is no
min(d, d_max) clamp in the source. -/
theorem follow_wall_obst_linear_exceeds_max :
    (follow_wall_to_left_obst 1 0.18 0.15 0.5).1 = 1 ∧ (1 : ℚ) ≠ 0.5 := by
  constructor
  · norm_num [follow_wall_to_left_obst]
  · norm_num

/-- C2 amended: for every front distance d at least d_min = 0.05 the returned
linear speed equals u_max * d / d_max with no clamping (so it exceeds u_max
whenever d exceeds d_max), and the returned angular speed equals
kd * (d_l - d_desired), exactly as in the constant-speed variant. -/
theorem follow_wall_obst_linear_formula (kd d_l d_desired d : ℚ) (h : 0.05 ≤ d) :
    follow_wall_to_left_obst kd d_l d_desired d
      = (0.5 * d / 0.25, kd * (d_l - d_desired)) ∧
    (follow_wall_to_left_obst kd d_l d_desired d).2
      = (follow_wall_to_left kd d_l d_desired).2 := by
  constructor
  · simp [follow_wall_to_left_obst, ge_iff_le, h]
  · simp [follow_wall_to_left_obst, follow_wall_to_left]

/-- Witness for follow_wall_obst_linear_formula at the concrete scenario of
the claim: d = 0.5, kd = 1, d_l = 0.18, d_desired = 0.15. -/
theorem follow_wall_obst_linear_formula_witness :
    (0.05 : ℚ) ≤ 0.5 ∧
    (follow_wall_to_left_obst 1 0.18 0.15 0.5
      = (0.5 * 0.5 / 0.25, 1 * (0.18 - 0.15)) ∧
     (follow_wall_to_left_obst 1 0.18 0.15 0.5).2
      = (follow_wall_to_left 1 0.18 0.15).2) :=
  ⟨by norm_num, follow_wall_obst_linear_formula 1 0.18 0.15 0.5 (by norm_num)⟩

/-- C7 counterexample: at a front distance exactly equal to the boundary
d_min = 0.05 the code takes the moving branch and returns linear speed
0.1, not the claimed clamped value 0. -/
theorem follow_wall_obst_boundary_moves :
    (follow_wall_to_left_obst 1 0.18 0.15 0.05).1 = 0.1 ∧ (0.1 : ℚ) ≠ 0 := by
  constructor
  · norm_num [follow_wall_to_left_obst]
  · norm_num

/-- C7 amended: the zero clamp applies only for front distances strictly below
d_min = 0.05; at the boundary d = d_min the comparison d >= d_min selects the
moving branch and the linear speed is u_max * d_min / d_max = 0.1. -/
theorem follow_wall_obst_boundary_threshold (kd d_l d_desired d : ℚ) (h : d < 0.05) :
    (follow_wall_to_left_obst kd d_l d_desired 0.05).1 = 0.1 ∧
    (follow_wall_to_left_obst kd d_l d_desired d).1 = 0 := by
  constructor
  · norm_num [follow_wall_to_left_obst]
  · simp [follow_wall_to_left_obst, ge_iff_le, not_le.mpr h]

/-- Witness for follow_wall_obst_boundary_threshold at d = 0.01. -/
theorem follow_wall_obst_boundary_threshold_witness :
    (0.01 : ℚ) < 0.05 ∧
    ((follow_wall_to_left_obst 1 0.18 0.15 0.05).1 = 0.1 ∧
     (follow_wall_to_left_obst 1 0.18 0.15 0.01).1 = 0) :=
  ⟨by norm_num, follow_wall_obst_boundary_threshold 1 0.18 0.15 0.01 (by norm_num)⟩

/-- C6: for every positive time step, one PID step returns output
kp*e + (e_acc + ki*e*dt) + kd*(e - e_prev)/dt and new state (e, e_acc +
ki*e*dt), so the accumulator changes by exactly ki*e*dt; and at the concrete
reference inputs the output is 0.9440485563, within 0.001 of 0.944. -/
theorem pid_step_formula (e e_prev e_acc dt kp kd ki : ℚ) (h : 0 < dt) :
    pid_controller e e_prev e_acc dt kp kd ki
      = some (kp*e + (e_acc + ki*e*dt) + kd*(e - e_prev)/dt, e, e_acc + ki*e*dt) ∧
    pid_controller 1.5707963 1.41371669 0 0.01 0.5 0.01 0.1
      = some (0.9440485563, 1.5707963, 0.0015707963) ∧
    |(0.9440485563 : ℚ) - 0.944| < 0.001 := by
  refine ⟨?_, ?_, by rw [abs_lt]; constructor <;> norm_num⟩
  · simp [pid_controller, ne_of_gt h]
  · norm_num [pid_controller]

/-- Witness for pid_step_formula at e = 1, e_prev = 0, e_acc = 0, dt = 1,
kp = kd = ki = 1. -/
theorem pid_step_formula_witness :
    (0 : ℚ) < 1 ∧
    (pid_controller 1 0 0 1 1 1 1
      = some (1*1 + (0 + 1*1*1) + 1*(1 - 0)/1, 1, 0 + 1*1*1) ∧
     pid_controller 1.5707963 1.41371669 0 0.01 0.5 0.01 0.1
      = some (0.9440485563, 1.5707963, 0.0015707963) ∧
     |(0.9440485563 : ℚ) - 0.944| < 0.001) :=
  ⟨by norm_num, pid_step_formula 1 0 0 1 1 1 1 (by norm_num)⟩

/-- C8: the odometry update computes the position increments with the new
wrapped heading wrapHeading (phi + w*dt), not the old heading, and returns
a fresh tuple built from the unchanged prior values (first-order,
heading-ahead Euler integration). -/
theorem integrate_pose_uses_new_heading (u w x y phi dt : ℝ) :
    get_robot_pose u w x y phi dt
      = (x + u * Real.cos (wrapHeading (phi + w * dt)) * dt,
         y + u * Real.sin (wrapHeading (phi + w * dt)) * dt,
         wrapHeading (phi + w * dt)) :=
  get_robot_pose_eq u w x y phi dt

/-- C9: when the prior heading lies in the interval from -pi inclusive to pi
exclusive and the heading increment is at most 2*pi in magnitude, the heading
returned by get_robot_pose lies in that same interval, never equals pi, and
an unwrapped heading of exactly pi is mapped to -pi. -/
theorem heading_single_wrap_sufficient (u w x y phi dt : ℝ)
    (h1 : -Real.pi ≤ phi) (h2 : phi < Real.pi) (h3 : |w * dt| ≤ 2*Real.pi) :
    (-Real.pi ≤ (get_robot_pose u w x y phi dt).2.2 ∧
     (get_robot_pose u w x y phi dt).2.2 < Real.pi) ∧
    (get_robot_pose u w x y phi dt).2.2 ≠ Real.pi ∧
    (phi + w * dt = Real.pi → (get_robot_pose u w x y phi dt).2.2 = -Real.pi) := by
  obtain ⟨ha, hb⟩ := abs_le.mp h3
  have hb1 : -(3*Real.pi) ≤ phi + w * dt := by linarith
  have hb2 : phi + w * dt < 3*Real.pi := by linarith
  have hh : (get_robot_pose u w x y phi dt).2.2 = wrapHeading (phi + w * dt) := by
    rw [get_robot_pose_eq]
  have hmem := wrapHeading_bounds (phi + w * dt) hb1 hb2
  rw [hh]
  refine ⟨hmem, ne_of_lt hmem.2, ?_⟩
  intro he
  rw [he]
  unfold wrapHeading
  rw [if_pos (le_refl Real.pi)]
  ring

/-- Witness for heading_single_wrap_sufficient at u = 0, w = 1, x = y = 0,
phi = 0, dt = 1. -/
theorem heading_single_wrap_sufficient_witness :
    (-Real.pi ≤ (0:ℝ) ∧ (0:ℝ) < Real.pi ∧ |(1:ℝ) * 1| ≤ 2*Real.pi) ∧
    ((-Real.pi ≤ (get_robot_pose 0 1 0 0 0 1).2.2 ∧
      (get_robot_pose 0 1 0 0 0 1).2.2 < Real.pi) ∧
     (get_robot_pose 0 1 0 0 0 1).2.2 ≠ Real.pi ∧
     ((0:ℝ) + 1 * 1 = Real.pi → (get_robot_pose 0 1 0 0 0 1).2.2 = -Real.pi)) :=
  ⟨⟨by linarith [Real.pi_pos], Real.pi_pos,
    by rw [show |(1:ℝ) * 1| = 1 by norm_num]; linarith [Real.pi_gt_three]⟩,
   heading_single_wrap_sufficient 0 1 0 0 0 1 (by linarith [Real.pi_pos]) Real.pi_pos
     (by rw [show |(1:ℝ) * 1| = 1 by norm_num]; linarith [Real.pi_gt_three])⟩

/-- C1 counterexample: with prior heading 0, angular speed 10 and time step 1
the heading increment is 10, and the single subtract-2*pi wrap of the source
leaves the returned heading at 10 - 2*pi, which is strictly above pi, outside
the claimed half-open interval. -/
theorem odometry_heading_escapes_Ioc :
    (get_robot_pose 0 10 0 0 0 1).2.2 ∉ Set.Ioc (-Real.pi) Real.pi := by
  have hcond : (0:ℝ) + 10 * 1 ≥ Real.pi := by linarith [Real.pi_lt_d2]
  have hval : (get_robot_pose (0:ℝ) 10 0 0 0 1).2.2 = 0 + 10 * 1 - 2*Real.pi := by
    rw [get_robot_pose_eq]
    unfold wrapHeading
    rw [if_pos hcond]
  rw [hval, Set.mem_Ioc]
  push_neg
  intro _
  linarith [Real.pi_lt_d2]

/-- C1 amended: the invariant holds only under the implicit preconditions that
the prior heading already lies in the interval from -pi inclusive to pi
exclusive and the heading increment is at most 2*pi in magnitude, and the
maintained interval is half-open at pi, not at -pi: the returned heading lies
in Ico (-pi) pi.  The concrete boundary case of the claim (prior heading
pi - 0.01, w = 10, dt = 0.1) wraps to -pi + 0.99 inside that interval. -/
theorem odometry_heading_wrapped_into_Ico (u w x y phi dt : ℝ)
    (h1 : -Real.pi ≤ phi) (h2 : phi < Real.pi) (h3 : |w * dt| ≤ 2*Real.pi) :
    ((get_robot_pose u w x y phi dt).2.2 ∈ Set.Ico (-Real.pi) Real.pi) ∧
    (get_robot_pose u 10 x y (Real.pi - 0.01) 0.1).2.2 = -Real.pi + 0.99 := by
  constructor
  · obtain ⟨ha, hb⟩ := abs_le.mp h3
    have hb1 : -(3*Real.pi) ≤ phi + w * dt := by linarith
    have hb2 : phi + w * dt < 3*Real.pi := by linarith
    have hh : (get_robot_pose u w x y phi dt).2.2 = wrapHeading (phi + w * dt) := by
      rw [get_robot_pose_eq]
    rw [hh, Set.mem_Ico]
    exact wrapHeading_bounds (phi + w * dt) hb1 hb2
  · have hcond : Real.pi - 0.01 + 10 * 0.1 ≥ Real.pi := by linarith
    have hh : (get_robot_pose u 10 x y (Real.pi - 0.01) 0.1).2.2
        = wrapHeading (Real.pi - 0.01 + 10 * 0.1) := by
      rw [get_robot_pose_eq]
    rw [hh]
    unfold wrapHeading
    rw [if_pos hcond]
    ring_nf

/-- Witness for odometry_heading_wrapped_into_Ico at u = w = x = y = phi = 0,
dt = 0. -/
theorem odometry_heading_wrapped_into_Ico_witness :
    (-Real.pi ≤ (0:ℝ) ∧ (0:ℝ) < Real.pi ∧ |(0:ℝ) * 0| ≤ 2*Real.pi) ∧
    (((get_robot_pose 0 0 0 0 0 0).2.2 ∈ Set.Ico (-Real.pi) Real.pi) ∧
     (get_robot_pose 0 10 0 0 (Real.pi - 0.01) 0.1).2.2 = -Real.pi + 0.99) :=
  ⟨⟨by linarith [Real.pi_pos], Real.pi_pos,
    by rw [show |(0:ℝ) * 0| = 0 by norm_num]; linarith [Real.pi_pos]⟩,
   odometry_heading_wrapped_into_Ico 0 0 0 0 0 0 (by linarith [Real.pi_pos]) Real.pi_pos
     (by rw [show |(0:ℝ) * 0| = 0 by norm_num]; linarith [Real.pi_pos])⟩

/-- C3 counterexample: called with the negative time step -1/10 (and the
encoder values of the reference cell), get_wheels_speed returns a numeric
result instead of failing: the source contains no dt validation. -/
theorem wheels_speed_accepts_negative_dt :
    (get_wheels_speed (1506, 1515) (1500, 1500) 72 (-(1/10))).isSome = true := by
  norm_num [get_wheels_speed]

/-- C3 amended: none of the time-integrating operations validates its time
step.  For every negative dt, encoder-speed derivation and the PID step
return numeric results, and pose integration returns the usual pose tuple;
the only failing inputs are the zero divisors dt = 0 (and pulses_per_turn =
0), where the source raises a division-by-zero runtime error. -/
theorem no_invalid_time_step_errors (encL encR oldL oldR : ℤ) (ppt dtw : ℝ)
    (e e_prev e_acc dtp kp kd ki : ℚ) (u w x y phi dto : ℝ)
    (hp : ppt ≠ 0) (h1 : dtw < 0) (h2 : dtp < 0) (h3 : dto ≤ 0) :
    (get_wheels_speed (encL, encR) (oldL, oldR) ppt dtw).isSome = true ∧
    (pid_controller e e_prev e_acc dtp kp kd ki).isSome = true ∧
    (get_robot_pose u w x y phi dto).2.2 = wrapHeading (phi + w * dto) ∧
    get_wheels_speed (encL, encR) (oldL, oldR) ppt 0 = none ∧
    pid_controller e e_prev e_acc 0 kp kd ki = none := by
  refine ⟨?_, ?_, by rw [get_robot_pose_eq], ?_, ?_⟩
  · simp [get_wheels_speed, hp, ne_of_lt h1]
  · simp [pid_controller, ne_of_lt h2]
  · simp [get_wheels_speed]
  · simp [pid_controller]

/-- Witness for no_invalid_time_step_errors at the encoder values of the
reference cell and negative time steps. -/
theorem no_invalid_time_step_errors_witness :
    ((72:ℝ) ≠ 0 ∧ (-(1/10):ℝ) < 0 ∧ (-1:ℚ) < 0 ∧ (-1:ℝ) < 0) ∧
    ((get_wheels_speed (1506, 1515) (1500, 1500) 72 (-(1/10))).isSome = true ∧
     (pid_controller 1 0 0 (-1) 1 1 1).isSome = true ∧
     (get_robot_pose 0 0 0 0 0 (-1)).2.2 = wrapHeading ((0:ℝ) + 0 * (-1)) ∧
     get_wheels_speed (1506, 1515) (1500, 1500) 72 0 = none ∧
     pid_controller 1 0 0 0 1 1 1 = none) :=
  ⟨⟨by norm_num, by norm_num, by norm_num, by norm_num⟩,
   no_invalid_time_step_errors 1506 1515 1500 1500 72 (-(1/10)) 1 0 0 (-1) 1 1 1
     0 0 0 0 0 (-1) (by norm_num) (by norm_num) (by norm_num) (by norm_num)⟩

/-- C5 counterexample: with the robot already at the goal but heading pi/2,
get_pose_error returns heading error -(pi/2), not zero: only the desired
heading collapses to zero at the goal, the heading error does not. -/
theorem pose_error_heading_not_collapsed :
    (get_pose_error 0 0 0 0 (Real.pi/2)).2 = -(Real.pi/2) ∧ -(Real.pi/2) ≠ (0:ℝ) := by
  have h00 : arctan2 0 0 = 0 := by simp [arctan2]
  constructor
  · simp only [get_pose_error, sub_self, h00, zero_sub, Real.sin_neg, Real.cos_neg,
      Real.sin_pi_div_two, Real.cos_pi_div_two]
    norm_num [arctan2]
  · simp [Real.pi_ne_zero]

/-- C5 amended: when the current position equals the goal, the distance error
is 0 and the desired heading collapses to zero by the arctan2 0 0 = 0
convention, so the returned heading error is the wrapped negated current
heading arctan2 (sin (-phi)) (cos (-phi)); it is zero when the heading is
zero, not for arbitrary headings. -/
theorem pose_error_at_goal (xd yd phi : ℝ) :
    (get_pose_error xd yd xd yd phi).1 = 0 ∧
    (get_pose_error xd yd xd yd phi).2 = arctan2 (Real.sin (-phi)) (Real.cos (-phi)) ∧
    (get_pose_error xd yd xd yd 0).2 = 0 := by
  have h00 : arctan2 0 0 = 0 := by simp [arctan2]
  refine ⟨?_, ?_, ?_⟩
  · simp [get_pose_error]
  · simp [get_pose_error, h00]
  · simp [get_pose_error, h00, Real.sin_zero, Real.cos_zero, arctan2]
